import Mathlib

/-!
Verification of the dealiasing front end in `pyart/correct/dealias.py`
(`dealias_fourdd` and `_create_rsl_volume`) against its natural-language
specification.

The embedding follows the Python/numpy source line by line.  Floating-point
cell values are modelled as `V` (either NaN or a finite rational); the
element-wise numpy operations become `List.map` / `List.zipWith` over 2-D
lists of `V`.  The compiled extension modules `pyart.io._rsl_interface` and
`pyart.correct._fourdd_interface` are not part of the visible sources; the
parts of their behaviour that the specification pins down are modelled from
the spec (each such definition says so in its doc comment), and the purely
numerical unfolding/synthesis work is kept abstract as oracle arguments.
-/

set_option autoImplicit false

deriving instance DecidableEq for Except

namespace Pyart

/-- A floating-point cell value: IEEE NaN or a finite number (modelled as ℚ). -/
inductive V where
  | nan : V
  | num : ℚ → V
deriving DecidableEq, Repr

/-- IEEE `==` on cell values: NaN compares unequal to everything, itself
included, which is exactly how numpy evaluates `fdata == fill_value`. -/
def veq : V → V → Bool
  | V.num a, V.num b => a == b
  | _, _ => false

/-- `np.isnan` on a single cell. -/
def visnan : V → Bool
  | V.nan => true
  | V.num _ => false

/-- Look up gate `(i, j)` (ray `i`, gate `j`) of a 2-D array. -/
def gate? {α : Type} (a : List (List α)) (i j : Nat) : Option α :=
  (a[i]?).bind (fun row => row[j]?)

/-- Python exception values as surfaced by the pipeline.  The two
`ValueError`s raised by `dealias_fourdd` keep their exact messages; the
failures of the compiled extensions get dedicated constructors. -/
inductive PyError where
  | valueError (msg : String)
  | shapeMismatch
  | paramOutOfRange
deriving DecidableEq, Repr

/-- `ValueError('sounding data or last_radar must be provided')` — the
configuration error for a call with no dealiasing source. -/
def missingSourceError : PyError :=
  PyError.valueError "sounding data or last_radar must be provided"

/-- `ValueError('Error when loading sounding data')` — raised when sounding
synthesis reports fatal failure (`success == 0`). -/
def soundingLoadError : PyError :=
  PyError.valueError "Error when loading sounding data"

/-- The RSL volume produced by `_rsl_interface.create_volume`: the float
data grouped by the rays-per-sweep vector. -/
structure RslVolume where
  data : List (List V)
  raysPerSweep : List Nat
  volNum : Nat
deriving DecidableEq, Repr

/-- The slice of a `Radar` object that `_create_rsl_volume` reads: the
field's masked array (raw data plus mask) and the sweep ray-index vectors. -/
structure Radar where
  fieldData : List (List V)
  fieldMask : List (List Bool)
  sweepStartRayIndex : List Nat
  sweepEndRayIndex : List Nat
deriving DecidableEq, Repr

/-- `radar.sweep_end_ray_index['data'] - radar.sweep_start_ray_index['data'] + 1`. -/
def raysPerSweep (radar : Radar) : List Nat :=
  List.zipWith (fun e s => e - s + 1) radar.sweepEndRayIndex radar.sweepStartRayIndex

/-- `np.copy(masked).astype(np.float32)`: numpy's `np.copy` calls
`np.array(a, copy=True)` with `subok=False`, so the `MaskedArray` subclass is
not preserved — the result is a base-class `ndarray` holding the raw
underlying data, and the mask is discarded. -/
def npCopy (data : List (List V)) (_mask : List (List Bool)) : List (List V) :=
  data

/-- `np.ma.filled(a, fill)` applied to a base-class `ndarray` `a` returns `a`
unchanged: there is no mask left to fill once `np.copy` has dropped the
`MaskedArray` subclass. -/
def maFilled (a : List (List V)) (_fill : ℚ) : List (List V) :=
  a

/-- One gate of `is_bad = (fdata == fill_value) | np.isnan(fdata);
fdata[is_bad] = rsl_badval`. -/
def badSub (fill badval : ℚ) (v : V) : V :=
  if veq v (V.num fill) || visnan v then V.num badval else v

/-- One gate of `fdata[excluded] = rsl_badval`. -/
def exSub (badval : ℚ) (ex : Bool) (v : V) : V :=
  if ex then V.num badval else v

/-- The float array handed to `create_volume`: copy (mask dropped), fill
(no-op on the plain array), bad-value substitution, then exclusion
substitution, exactly in the source's order. -/
def rslFdata (data : List (List V)) (mask : List (List Bool))
    (fill badval : ℚ) (excluded : Option (List (List Bool))) : List (List V) :=
  let fdata := maFilled (npCopy data mask) fill
  let fdata := fdata.map (List.map (badSub fill badval))
  match excluded with
  | none => fdata
  | some ex =>
      List.zipWith (fun row exrow => List.zipWith (fun v e => exSub badval e v) row exrow)
        fdata ex

/-- Modelled from the spec: `pyart.io._rsl_interface.create_volume` is a
compiled extension not present under the sources.  Per the spec it fails with
`ShapeMismatch` when the declared rays-per-sweep do not sum to the total ray
count, and otherwise packages the 2-D float data into an RSL volume. -/
def create_volume (fdata : List (List V)) (rays : List Nat) (volNum : Nat) :
    Except PyError RslVolume :=
  if rays.sum ≠ fdata.length then Except.error PyError.shapeMismatch
  else Except.ok ⟨fdata, rays, volNum⟩

/-- `_create_rsl_volume(radar, field_name, vol_num, rsl_badval, excluded)`:
the field lookup is folded into `Radar`, and `fill_value = get_fillvalue()`
is passed explicitly. -/
def create_rsl_volume (radar : Radar) (volNum : Nat) (rslBadval fillValue : ℚ)
    (excluded : Option (List (List Bool))) : Except PyError RslVolume :=
  create_volume (rslFdata radar.fieldData radar.fieldMask fillValue rslBadval excluded)
    (raysPerSweep radar) volNum

/-! ### Heap-level rendering of `_create_rsl_volume` (frame effect)

To state that the builder never mutates the source radar's arrays we give a
second, reference-level rendering: arrays live in a store, `np.copy`
allocates a fresh array, and every in-place update
(`fdata[is_bad] = rsl_badval`, `fdata[excluded] = rsl_badval`) is a write to
the fresh reference only. -/

/-- A heap of 2-D float arrays; an array reference is an index into it. -/
abbrev Store := List (List (List V))

/-- `_create_rsl_volume` at the level of array references: the radar field's
raw data lives at reference `rdata` in the store.  `np.copy` allocates a
fresh array; the substitutions then overwrite only that fresh reference.
Returns the new store together with the reference of the volume's data. -/
def create_rsl_volumeS (σ : Store) (rdata : Nat) (mask : List (List Bool))
    (fill badval : ℚ) (excluded : Option (List (List Bool))) : Store × Nat :=
  let src := σ.getD rdata []
  let fresh := σ.length
  let σ1 : Store := σ ++ [src]
  let σ2 : Store := σ1.set fresh (rslFdata src mask fill badval excluded)
  (σ2, fresh)

/-! ### Sounding synthesis (`_fourdd_interface.create_soundvolume`) -/

/-- Boolean test that a height profile is strictly increasing. -/
def strictlyIncreasing : List ℚ → Bool
  | [] => true
  | [_] => true
  | a :: b :: t => (decide (a < b)) && strictlyIncreasing (b :: t)

/-- Oracle standing for the external numeric synthesis of a sounding volume:
from the profile arrays (heights, speeds, directions), the sign convention,
the shear gate and the reference volume it either produces a volume —
possibly with sentinel gates where the profile only partially covers the
gate heights — or `none` when no usable comparison volume can be produced at
all (fatal numeric failure). -/
def SynthOracle : Type :=
  List ℚ → List ℚ → List ℚ → ℤ → ℚ → RslVolume → Option RslVolume

/-- Modelled from the spec: `pyart.correct._fourdd_interface.create_soundvolume`
is a compiled extension not present under the sources.  Per the spec it
validates the wind profile — nonempty, strictly increasing heights, at most
999 samples — and rejects an invalid profile with the failure value
`(0, none)` before the synthesis routine is ever invoked; on a fatal numeric
failure of the synthesis it likewise returns success flag `0` and no volume,
while partial height coverage yields a volume (with sentinel gates) and
success flag `1`. -/
def create_soundvolume (synth : SynthOracle) (vol : RslVolume)
    (hc sc dc : List ℚ) (sign : ℤ) (maxShear : ℚ) : Nat × Option RslVolume :=
  if hc = [] ∨ strictlyIncreasing hc = false ∨ 999 < hc.length then (0, none)
  else
    match synth hc sc dc sign maxShear vol with
    | none => (0, none)
    | some v => (1, some v)

/-! ### The dealiasing routine (`_fourdd_interface.fourdd_dealias`) -/

/-- The two FourDD tuning parameters whose ranges the spec documents. -/
structure FourddParams where
  ba_mincount : ℤ
  ba_edgecount : ℤ
deriving DecidableEq, Repr

/-- Oracle standing for the external multi-pass unfolding computation: from
the velocity volume, the optional last-scan and sounding volumes, the filter
flag and the parameters it produces the success flag and the raw unfolded
data. -/
def UnfoldOracle : Type :=
  RslVolume → Option RslVolume → Option RslVolume → Nat → FourddParams →
    Bool × List (List V)

/-- Modelled from the spec: `pyart.correct._fourdd_interface.fourdd_dealias`
is a compiled extension not present under the sources.  Per the spec it fails
the whole call on invalid parameter ranges — `ba_mincount` must lie in
[1, 8] and `ba_edgecount` in [1, 5] — and otherwise runs the unfolding
passes, which are external and represented here by the oracle argument. -/
def fourdd_dealias (engine : UnfoldOracle) (vel : RslVolume)
    (last sound : Option RslVolume) (filt : Nat) (p : FourddParams) :
    Except PyError (Bool × List (List V)) :=
  if p.ba_mincount < 1 ∨ 8 < p.ba_mincount ∨
      p.ba_edgecount < 1 ∨ 5 < p.ba_edgecount then
    Except.error PyError.paramOutOfRange
  else Except.ok (engine vel last sound filt p)

/-! ### Result reconciliation (`dealias_fourdd`, lines 246-258) -/

/-- `is_bad_data = np.logical_or(np.isnan(data), data == rsl_badval)` at one
gate. -/
def is_bad_data (badval : ℚ) (v : V) : Bool :=
  visnan v || veq v (V.num badval)

/-- One gate of the bad-gate disposition: with `keep_original` the original
observed value is taken (`np.where(is_bad_data, vel_array, data)`), otherwise
the fill value (`data[is_bad_data] = fill_value`). -/
def reconcileGate (badval fill : ℚ) (keep : Bool) (orig raw : V) : V :=
  if keep then (if is_bad_data badval raw then orig else raw)
  else (if is_bad_data badval raw then V.num fill else raw)

/-- The returned field dictionary: the data, the mask laid over it by
`np.ma.masked_equal`, and the attached `_FillValue`. -/
structure FieldDict where
  data : List (List V)
  mask : List (List Bool)
  fillValue : ℚ
deriving DecidableEq, Repr

/-- Lines 246-258 of `dealias.py`: classify bad gates, substitute original
value or fill value, then `np.ma.masked_equal(data, fill_value)` — which
masks exactly the gates whose value compares equal to `fill_value` (a NaN
never does) and sets the result's fill value to `fill_value`. -/
def reconcile (raw orig : List (List V)) (badval fill : ℚ) (keep : Bool) :
    FieldDict :=
  let d := List.zipWith
    (fun rrow orow => List.zipWith (fun r o => reconcileGate badval fill keep o r) rrow orow)
    raw orig
  { data := d
    mask := d.map (List.map (fun v => veq v (V.num fill)))
    fillValue := fill }

/-! ### The full `dealias_fourdd` front end -/

/-- Trace of the volume constructions performed by a call, in order. -/
inductive Step where
  | builtVelVolume (v : RslVolume)
  | builtLastVolume (v : RslVolume)
  | builtSoundVolume (v : RslVolume)
deriving DecidableEq, Repr

/-- Tail of `dealias_fourdd`: run the (modelled) dealiasing routine on the
constructed volumes and reconcile its raw output with the original field. -/
def runDealias (engine : UnfoldOracle) (vel : RslVolume)
    (last sound : Option RslVolume) (filt : Nat) (p : FourddParams)
    (t : List Step) (radar : Radar) (rslBadval : ℚ) (keep : Bool)
    (fill : ℚ) : List Step × Except PyError FieldDict :=
  match fourdd_dealias engine vel last sound filt p with
  | Except.error e => (t, Except.error e)
  | Except.ok fd => (t, Except.ok (reconcile fd.2 radar.fieldData rslBadval fill keep))

/-- `dealias_fourdd`, with the external numeric routines abstracted as the
`engine`/`synth` oracles, the gatefilter already parsed into the `excluded`
mask, and the config-supplied field names and fill value made explicit.  The
returned trace records every volume construction the call performed before
it returned or raised. -/
def dealias_fourdd (engine : UnfoldOracle) (synth : SynthOracle)
    (radar : Radar) (lastRadar : Option Radar)
    (soundingHeights soundingWindSpeeds soundingWindDirection : Option (List ℚ))
    (excluded : List (List Bool)) (filt : Nat) (rslBadval : ℚ)
    (keepOriginal : Bool) (fillValue : ℚ) (maxShear : ℚ) (sign : ℤ)
    (p : FourddParams) : List Step × Except PyError FieldDict :=
  let soundingAvailable :=
    soundingHeights.isSome && soundingWindSpeeds.isSome &&
      soundingWindDirection.isSome
  if soundingAvailable = false ∧ lastRadar = none then
    ([], Except.error missingSourceError)
  else
    match create_rsl_volume radar 1 rslBadval fillValue (some excluded) with
    | Except.error e => ([], Except.error e)
    | Except.ok velVolume =>
      let lastRes : Except PyError (Option RslVolume) :=
        match lastRadar with
        | none => Except.ok none
        | some lr => (create_rsl_volume lr 1 rslBadval fillValue none).map some
      match lastRes with
      | Except.error e => ([Step.builtVelVolume velVolume], Except.error e)
      | Except.ok lastVol =>
        let t2 := Step.builtVelVolume velVolume ::
          (match lastVol with
           | none => []
           | some v => [Step.builtLastVolume v])
        match soundingHeights, soundingWindSpeeds, soundingWindDirection with
        | some hc, some sc, some dc =>
          let res := create_soundvolume synth velVolume hc sc dc sign maxShear
          if res.1 = 0 then (t2, Except.error soundingLoadError)
          else
            let t3 := t2 ++
              (match res.2 with
               | none => []
               | some v => [Step.builtSoundVolume v])
            runDealias engine velVolume lastVol res.2 filt p t3 radar rslBadval
              keepOriginal fillValue
        | _, _, _ =>
          runDealias engine velVolume lastVol none filt p t2 radar rslBadval
            keepOriginal fillValue

/-! ### Helper lemmas on 2-D gate lookup -/

theorem gate?_map {α β : Type} (f : α → β) (a : List (List α)) (i j : Nat) :
    gate? (a.map (List.map f)) i j = (gate? a i j).map f := by
  simp only [gate?, List.getElem?_map]
  cases a[i]? <;> simp

theorem gate?_zipWith {α β γ : Type} (f : α → β → γ)
    (a : List (List α)) (b : List (List β)) (i j : Nat) :
    gate? (List.zipWith (fun ra rb => List.zipWith f ra rb) a b) i j =
      (gate? a i j).bind (fun x => (gate? b i j).map (f x)) := by
  simp only [gate?, List.getElem?_zipWith']
  cases a[i]? with
  | none => simp
  | some ra =>
    cases b[i]? with
    | none => simp
    | some rb =>
      simp only [Option.map_some', Option.some_bind, List.getElem?_zipWith']
      cases ra[j]? <;> cases rb[j]? <;> simp

/-- Extracting the data array of a successfully built volume. -/
theorem create_rsl_volume_data (radar : Radar) (volNum : Nat)
    (badval fill : ℚ) (ex : Option (List (List Bool))) (v : RslVolume)
    (h : create_rsl_volume radar volNum badval fill ex = Except.ok v) :
    v.data = rslFdata radar.fieldData radar.fieldMask fill badval ex := by
  unfold create_rsl_volume create_volume at h
  split at h
  · cases h
  · cases h
    rfl

/-- With no exclusion mask, a gate holding an ordinary number different from
the fill value passes through the substitution unchanged. -/
theorem rslFdata_none_gate (data : List (List V)) (mask : List (List Bool))
    (fill badval : ℚ) (i j : Nat) (q : ℚ)
    (hg : gate? data i j = some (V.num q)) (hq : q ≠ fill) :
    gate? (rslFdata data mask fill badval none) i j = some (V.num q) := by
  have h : rslFdata data mask fill badval none =
      data.map (List.map (badSub fill badval)) := rfl
  rw [h, gate?_map, hg]
  have hb : badSub fill badval (V.num q) = V.num q := by
    simp [badSub, veq, visnan, hq]
  simp [hb]

/-! ### Concrete fixtures for witnesses and counter-evaluations -/

/-- A one-sweep, one-ray, one-gate radar scan. -/
def testRadar : Radar := ⟨[[V.num 5]], [[false]], [0], [0]⟩

/-- A concrete unfolding oracle. -/
def testEngine : UnfoldOracle := fun _ _ _ _ _ => (true, [[V.num 5]])

/-- A synthesis oracle that always reports fatal numeric failure. -/
def testSynthFail : SynthOracle := fun _ _ _ _ _ _ => none

/-- A synthesis oracle that always produces a comparison volume. -/
def testSynthSome : SynthOracle := fun _ _ _ _ _ _ => some ⟨[[V.num 3]], [1], 1⟩

/-! ### Claim theorems -/

/-- Claim C1: when the sounding data is incomplete and no last radar is
given, `dealias_fourdd` returns the configuration error at once: the trace
of constructed volumes is empty (nothing was built, no dealiasing ran), and
this holds for every unfolding and synthesis oracle, so the failure precedes
— and is independent of — all computation.  The error value is the
`ValueError` with the missing-source message, never retried: the call's
result simply is that error. -/
theorem C1_missing_source_fails_before_any_work
    (engine : UnfoldOracle) (synth : SynthOracle) (radar : Radar)
    (lastRadar : Option Radar) (sh ss sd : Option (List ℚ))
    (excluded : List (List Bool)) (filt : Nat) (badval : ℚ) (keep : Bool)
    (fill ms : ℚ) (sign : ℤ) (p : FourddParams)
    (hs : sh = none ∨ ss = none ∨ sd = none) (hl : lastRadar = none) :
    dealias_fourdd engine synth radar lastRadar sh ss sd excluded filt badval
        keep fill ms sign p = ([], Except.error missingSourceError) := by
  subst hl
  rcases hs with h | h | h <;> subst h <;>
    simp [dealias_fourdd, Bool.and_eq_false_iff]

/-- Witness for C1 at a concrete input. -/
theorem C1_missing_source_fails_before_any_work_witness :
    ((none : Option (List ℚ)) = none ∨ (none : Option (List ℚ)) = none ∨
        (none : Option (List ℚ)) = none) ∧
      ((none : Option Radar) = none) ∧
      dealias_fourdd testEngine testSynthFail testRadar none none none none
          [[false]] 1 131072 false (-9999) 0 1 ⟨5, 3⟩ =
        ([], Except.error missingSourceError) :=
  ⟨Or.inl rfl, rfl,
    C1_missing_source_fails_before_any_work testEngine testSynthFail testRadar
      none none none none [[false]] 1 131072 false (-9999) 0 1 ⟨5, 3⟩
      (Or.inl rfl) rfl⟩

/-- Claim C2 (counter-evaluation at the failing input): a gate that is
masked in the source field (mask entry `true`) but whose raw underlying
datum is the ordinary number 7 passes through `_create_rsl_volume`
unchanged.  `np.copy` drops the `MaskedArray` subclass, the subsequent
`np.ma.filled` therefore has nothing to fill, and 7 is neither the fill
value nor NaN nor excluded, so the built volume holds 7 at that gate —
not the `bad_sentinel` 131072 the claim requires for masked gates. -/
theorem C2_masked_gate_not_sentinel :
    create_rsl_volume ⟨[[V.num 7]], [[true]], [0], [0]⟩ 1 131072 (-9999) none =
      Except.ok ⟨[[V.num 7]], [1], 1⟩ ∧
    V.num (7 : ℚ) ≠ V.num (131072 : ℚ) := by
  decide

/-- Claim C3 (counter-evaluation at the failing input): with
`keep_original = True`, a bad raw-output gate (here the RSL sentinel
131072) whose original value was NaN receives the original NaN via
`np.where`, and the final `np.ma.masked_equal(data, fill_value)` does not
mask it, because NaN never compares equal to the fill value.  The returned
field holds an unmasked NaN, while the claim (and the function's own
docstring, "NaN values are still masked") requires the gate to be masked. -/
theorem C3_original_nan_gate_left_unmasked :
    (reconcile [[V.num 131072]] [[V.nan]] 131072 (-9999) true).data = [[V.nan]] ∧
    (reconcile [[V.num 131072]] [[V.nan]] 131072 (-9999) true).mask = [[false]] := by
  decide

/-- Claim C4: with `keep_original` false, a gate is classified bad exactly
when its raw output is NaN or equals the sentinel; bad gates are set to the
fill value, other gates keep their raw output; the returned mask is `true`
at a gate exactly when the gate's final value compares equal to the fill
value (whether just substituted or already present in the raw output); and
the fill value is attached to the result as its declared missing-data
marker. -/
theorem C4_bad_gate_fill_and_masking
    (raw orig : List (List V)) (badval fill : ℚ) (i j : Nat) (r o : V)
    (hr : gate? raw i j = some r) (ho : gate? orig i j = some o) :
    ∃ d, gate? (reconcile raw orig badval fill false).data i j = some d ∧
      d = (if visnan r || veq r (V.num badval) then V.num fill else r) ∧
      gate? (reconcile raw orig badval fill false).mask i j =
        some (veq d (V.num fill)) ∧
      (reconcile raw orig badval fill false).fillValue = fill := by
  have hd : gate? (reconcile raw orig badval fill false).data i j =
      some (reconcileGate badval fill false o r) := by
    have h : (reconcile raw orig badval fill false).data =
        List.zipWith
          (fun rrow orow =>
            List.zipWith (fun r o => reconcileGate badval fill false o r) rrow orow)
          raw orig := rfl
    rw [h, gate?_zipWith, hr, ho]
    rfl
  refine ⟨reconcileGate badval fill false o r, hd, ?_, ?_, rfl⟩
  · simp [reconcileGate, is_bad_data]
  · have hm : (reconcile raw orig badval fill false).mask =
        ((reconcile raw orig badval fill false).data).map
          (List.map (fun v => veq v (V.num fill))) := rfl
    rw [hm, gate?_map, hd]
    rfl

/-- Witness for C4 at a concrete input: the raw output holds the sentinel,
so the gate is bad, takes the fill value, and ends up masked. -/
theorem C4_bad_gate_fill_and_masking_witness :
    gate? [[V.num 131072]] 0 0 = some (V.num 131072) ∧
    gate? [[V.num 5]] 0 0 = some (V.num 5) ∧
    (∃ d, gate? (reconcile [[V.num 131072]] [[V.num 5]] 131072 (-9999) false).data 0 0 =
        some d ∧
      d = (if visnan (V.num 131072) || veq (V.num 131072) (V.num 131072) then
        V.num (-9999) else V.num 131072) ∧
      gate? (reconcile [[V.num 131072]] [[V.num 5]] 131072 (-9999) false).mask 0 0 =
        some (veq d (V.num (-9999))) ∧
      (reconcile [[V.num 131072]] [[V.num 5]] 131072 (-9999) false).fillValue = -9999) :=
  ⟨by decide, by decide,
    C4_bad_gate_fill_and_masking [[V.num 131072]] [[V.num 5]] 131072 (-9999) 0 0
      (V.num 131072) (V.num 5) (by decide) (by decide)⟩

/-- Claim C5: an invalid wind profile — empty, non-monotonic in height, or
longer than 999 samples — makes sounding synthesis return the failure value
`(0, none)` (no exception is raised: the return type carries no error), and
it does so for every synthesis oracle, i.e. the profile is rejected before
the synthesis routine is ever consulted. -/
theorem C5_invalid_profile_rejected (synth : SynthOracle) (vol : RslVolume)
    (hc sc dc : List ℚ) (sign : ℤ) (ms : ℚ)
    (h : hc = [] ∨ strictlyIncreasing hc = false ∨ 999 < hc.length) :
    create_soundvolume synth vol hc sc dc sign ms = (0, none) := by
  unfold create_soundvolume
  rw [if_pos h]

/-- Witness for C5 at a concrete input: a non-monotonic two-sample profile. -/
theorem C5_invalid_profile_rejected_witness :
    ([(2 : ℚ), 1] = [] ∨ strictlyIncreasing [(2 : ℚ), 1] = false ∨
        999 < ([(2 : ℚ), 1]).length) ∧
    create_soundvolume testSynthSome ⟨[[V.num 5]], [1], 1⟩ [2, 1] [3, 3] [90, 90] 1 0 =
      (0, none) :=
  ⟨Or.inr (Or.inl (by decide)),
    C5_invalid_profile_rejected testSynthSome ⟨[[V.num 5]], [1], 1⟩ [2, 1] [3, 3]
      [90, 90] 1 0 (Or.inr (Or.inl (by decide)))⟩

/-- Claim C7: when the declared rays-per-sweep of the scan do not sum to its
total ray count, `_create_rsl_volume` fails with the shape-mismatch error
instead of building a volume.  (The exclusion mask, when given, is assumed
to have at least the scan's ray count, as numpy boolean indexing requires a
mask of the array's shape.) -/
theorem C7_shape_mismatch_fails (radar : Radar) (volNum : Nat)
    (badval fill : ℚ) (excluded : Option (List (List Bool)))
    (hex : ∀ ex, excluded = some ex → radar.fieldData.length ≤ ex.length)
    (h : (raysPerSweep radar).sum ≠ radar.fieldData.length) :
    create_rsl_volume radar volNum badval fill excluded =
      Except.error PyError.shapeMismatch := by
  have hlen : (rslFdata radar.fieldData radar.fieldMask fill badval excluded).length =
      radar.fieldData.length := by
    cases excluded with
    | none => simp [rslFdata, npCopy, maFilled]
    | some ex =>
        have hx := hex ex rfl
        simp [rslFdata, npCopy, maFilled, List.length_zipWith]
        omega
  unfold create_rsl_volume create_volume
  rw [hlen, if_pos h]

/-- Witness for C7 at a concrete input: two declared rays in one sweep but
only one ray of data. -/
theorem C7_shape_mismatch_fails_witness :
    (∀ ex, (none : Option (List (List Bool))) = some ex →
        (([[V.num 5]] : List (List V))).length ≤ ex.length) ∧
    (raysPerSweep ⟨[[V.num 5]], [[false]], [0], [1]⟩).sum ≠
      (([[V.num 5]] : List (List V))).length ∧
    create_rsl_volume ⟨[[V.num 5]], [[false]], [0], [1]⟩ 1 131072 (-9999) none =
      Except.error PyError.shapeMismatch :=
  ⟨(fun ex hx => nomatch hx), (by decide),
    C7_shape_mismatch_fails ⟨[[V.num 5]], [[false]], [0], [1]⟩ 1 131072 (-9999)
      none (fun ex hx => nomatch hx) (by decide)⟩

/-- Claim C9: `_create_rsl_volume` never mutates the source radar's arrays.
At the heap level, every array reference that existed before the call holds
the same array afterwards — all substitutions hit only the fresh reference
allocated by `np.copy`, which lies outside the original store. -/
theorem C9_builder_leaves_source_unchanged (σ : Store) (rdata : Nat)
    (mask : List (List Bool)) (fill badval : ℚ)
    (excluded : Option (List (List Bool))) (i : Nat) (hi : i < σ.length) :
    ((create_rsl_volumeS σ rdata mask fill badval excluded).1)[i]? = σ[i]? ∧
    (create_rsl_volumeS σ rdata mask fill badval excluded).2 = σ.length := by
  constructor
  · have hne : σ.length ≠ i := Nat.ne_of_gt hi
    show (((σ ++ [σ.getD rdata []]).set σ.length
        (rslFdata (σ.getD rdata []) mask fill badval excluded))[i]?) = σ[i]?
    rw [List.getElem?_set_ne hne, List.getElem?_append_left hi]
  · rfl

/-- Witness for C9 at a concrete input: a one-array store. -/
theorem C9_builder_leaves_source_unchanged_witness :
    0 < ([[[V.num 7]]] : Store).length ∧
    ((create_rsl_volumeS [[[V.num 7]]] 0 [[true]] (-9999) 131072 none).1)[0]? =
      ([[[V.num 7]]] : Store)[0]? ∧
    (create_rsl_volumeS [[[V.num 7]]] 0 [[true]] (-9999) 131072 none).2 =
      ([[[V.num 7]]] : Store).length :=
  ⟨by decide,
    C9_builder_leaves_source_unchanged [[[V.num 7]]] 0 [[true]] (-9999) 131072
      none 0 (by decide)⟩

/-- Claim C8 (counterexample): calling with `ba_mincount = 0` (outside
[1, 8]) does fail with the parameter-range configuration error, but only
after partial computation: the trace shows that the velocity volume and the
last-scan volume were both constructed before the parameter check, which
lives in the dealiasing routine and runs after volume construction.  This
refutes "no velocity volume or sounding volume is constructed before the
parameter range is checked". -/
theorem C8_param_check_after_volumes_counterexample :
    (dealias_fourdd testEngine testSynthFail testRadar (some testRadar) none none
        none [[false]] 1 131072 false (-9999) 0 1 ⟨0, 3⟩).2 =
      Except.error PyError.paramOutOfRange ∧
    (dealias_fourdd testEngine testSynthFail testRadar (some testRadar) none none
        none [[false]] 1 131072 false (-9999) 0 1 ⟨0, 3⟩).1 =
      [Step.builtVelVolume ⟨[[V.num 5]], [1], 1⟩,
       Step.builtLastVolume ⟨[[V.num 5]], [1], 1⟩] := by
  decide

/-- Claim C8 as amended: a call with `ba_mincount` outside [1, 8] or
`ba_edgecount` outside [1, 5] that otherwise reaches the dealiasing routine
fails with the parameter-range configuration error and performs no
unfolding (the outcome is the same for every unfolding oracle, which is
universally quantified here), but the velocity volume — and any last-scan
and sounding volumes — are constructed first: the parameter check happens
inside the dealiasing routine, after volume construction. -/
theorem C8_amended_param_error_after_volumes
    (engine : UnfoldOracle) (synth : SynthOracle) (radar : Radar)
    (lastRadar : Option Radar) (sh ss sd : Option (List ℚ))
    (excluded : List (List Bool)) (filt : Nat) (badval : ℚ) (keep : Bool)
    (fill ms : ℚ) (sign : ℤ) (p : FourddParams) (velVolume : RslVolume)
    (hp : p.ba_mincount < 1 ∨ 8 < p.ba_mincount ∨
      p.ba_edgecount < 1 ∨ 5 < p.ba_edgecount)
    (hsrc : ¬((sh.isSome && ss.isSome && sd.isSome) = false ∧ lastRadar = none))
    (hvel : create_rsl_volume radar 1 badval fill (some excluded) =
      Except.ok velVolume)
    (hlast : ∀ lr, lastRadar = some lr →
      ∃ v, create_rsl_volume lr 1 badval fill none = Except.ok v)
    (hsound : ∀ hc sc dc, sh = some hc → ss = some sc → sd = some dc →
      ∃ v, create_soundvolume synth velVolume hc sc dc sign ms = (1, some v)) :
    (dealias_fourdd engine synth radar lastRadar sh ss sd excluded filt badval
        keep fill ms sign p).2 = Except.error PyError.paramOutOfRange ∧
    Step.builtVelVolume velVolume ∈
      (dealias_fourdd engine synth radar lastRadar sh ss sd excluded filt badval
        keep fill ms sign p).1 := by
  have herr : ∀ vel last sound f,
      fourdd_dealias engine vel last sound f p =
        Except.error PyError.paramOutOfRange := by
    intro vel last sound f
    unfold fourdd_dealias
    rw [if_pos hp]
  unfold dealias_fourdd
  rw [if_neg hsrc, hvel]
  cases lastRadar with
  | none =>
    cases sh with
    | none => simp [runDealias, herr]
    | some hc =>
      cases ss with
      | none => simp [runDealias, herr]
      | some sc =>
        cases sd with
        | none => simp [runDealias, herr]
        | some dc =>
          obtain ⟨sv, hsv⟩ := hsound hc sc dc rfl rfl rfl
          simp [hsv, runDealias, herr]
  | some lr =>
    obtain ⟨lv, hlv⟩ := hlast lr rfl
    cases sh with
    | none => simp [hlv, runDealias, herr, Except.map]
    | some hc =>
      cases ss with
      | none => simp [hlv, runDealias, herr, Except.map]
      | some sc =>
        cases sd with
        | none => simp [hlv, runDealias, herr, Except.map]
        | some dc =>
          obtain ⟨sv, hsv⟩ := hsound hc sc dc rfl rfl rfl
          simp [hlv, hsv, runDealias, herr, Except.map]

/-- Witness for the amended C8 at a concrete input: `ba_mincount = 0` with a
last radar provided and no sounding data. -/
theorem C8_amended_param_error_after_volumes_witness :
    ((0 : ℤ) < 1 ∨ (8 : ℤ) < 0 ∨ (3 : ℤ) < 1 ∨ (5 : ℤ) < 3) ∧
    (dealias_fourdd testEngine testSynthFail testRadar (some testRadar) none none
        none [[false]] 1 131072 false (-9999) 0 1 ⟨0, 3⟩).2 =
      Except.error PyError.paramOutOfRange ∧
    Step.builtVelVolume ⟨[[V.num 5]], [1], 1⟩ ∈
      (dealias_fourdd testEngine testSynthFail testRadar (some testRadar) none none
        none [[false]] 1 131072 false (-9999) 0 1 ⟨0, 3⟩).1 :=
  ⟨Or.inl (by decide),
    C8_amended_param_error_after_volumes testEngine testSynthFail testRadar
      (some testRadar) none none none [[false]] 1 131072 false (-9999) 0 1 ⟨0, 3⟩
      ⟨[[V.num 5]], [1], 1⟩ (Or.inl (by decide)) (by decide) (by decide)
      (by
        intro lr hlr
        have h : testRadar = lr := Option.some_inj.mp hlr
        subst h
        exact ⟨⟨[[V.num 5]], [1], 1⟩, by decide⟩)
      (fun hc sc dc hhc _ _ => nomatch hhc)⟩

/-- The trace returned by `runDealias` is the trace it was handed: the
dealiasing routine itself constructs no further volumes. -/
theorem runDealias_trace (engine : UnfoldOracle) (vel : RslVolume)
    (last sound : Option RslVolume) (filt : Nat) (p : FourddParams)
    (t : List Step) (radar : Radar) (badval : ℚ) (keep : Bool) (fill : ℚ) :
    (runDealias engine vel last sound filt p t radar badval keep fill).1 = t := by
  unfold runDealias
  cases fourdd_dealias engine vel last sound filt p <;> rfl

/-- Claim C6: when sounding synthesis reports fatal numeric failure
(success flag 0) the synthesizer hands back no volume at all; the pipeline
surfaces this as the sounding-load `ValueError`, an error value distinct
from the missing-source configuration error and from the parameter-range
and shape failures, so a caller can tell the cases apart; and a profile
that is valid but only partially covers the gate heights does not trigger
the failure — whenever the synthesis produces a volume (with sentinel gates
where coverage is missing), the success flag is 1. -/
theorem C6_numeric_failure_surfaced_distinctly
    (engine : UnfoldOracle) (synth : SynthOracle) (radar : Radar)
    (hc sc dc : List ℚ) (excluded : List (List Bool)) (filt : Nat)
    (badval : ℚ) (keep : Bool) (fill ms : ℚ) (sign : ℤ) (p : FourddParams)
    (velVolume : RslVolume) (sv : Option RslVolume)
    (hvel : create_rsl_volume radar 1 badval fill (some excluded) =
      Except.ok velVolume)
    (hfail : create_soundvolume synth velVolume hc sc dc sign ms = (0, sv)) :
    sv = none ∧
    (dealias_fourdd engine synth radar none (some hc) (some sc) (some dc)
        excluded filt badval keep fill ms sign p).2 =
      Except.error soundingLoadError ∧
    soundingLoadError ≠ missingSourceError ∧
    soundingLoadError ≠ PyError.paramOutOfRange ∧
    soundingLoadError ≠ PyError.shapeMismatch ∧
    (∀ (synth2 : SynthOracle) (hc2 sc2 dc2 : List ℚ) (v : RslVolume),
        hc2 ≠ [] → strictlyIncreasing hc2 = true → hc2.length ≤ 999 →
        synth2 hc2 sc2 dc2 sign ms velVolume = some v →
        create_soundvolume synth2 velVolume hc2 sc2 dc2 sign ms = (1, some v)) := by
  refine ⟨?_, ?_, by decide, by decide, by decide, ?_⟩
  · unfold create_soundvolume at hfail
    split at hfail
    · simpa using hfail.symm
    · split at hfail
      · simpa using hfail.symm
      · simp at hfail
  · simp [dealias_fourdd, hvel, hfail]
  · intro synth2 hc2 sc2 dc2 v h1 h2 h3 h4
    have hcond : ¬(hc2 = [] ∨ strictlyIncreasing hc2 = false ∨
        999 < hc2.length) := by
      rintro (h | h | h)
      · exact h1 h
      · rw [h2] at h
        cases h
      · omega
    unfold create_soundvolume
    rw [if_neg hcond, h4]

/-- Witness for C6 at a concrete input: a synthesis oracle that fails
fatally on a valid two-sample profile, and a second oracle that produces a
volume (partial coverage) and therefore succeeds with flag 1. -/
theorem C6_numeric_failure_surfaced_distinctly_witness :
    create_rsl_volume testRadar 1 131072 (-9999) (some [[false]]) =
      Except.ok ⟨[[V.num 5]], [1], 1⟩ ∧
    create_soundvolume testSynthFail ⟨[[V.num 5]], [1], 1⟩ [1, 2] [3, 4]
      [90, 100] 1 0 = (0, none) ∧
    (dealias_fourdd testEngine testSynthFail testRadar none (some [1, 2])
        (some [3, 4]) (some [90, 100]) [[false]] 1 131072 false (-9999) 0 1
        ⟨5, 3⟩).2 = Except.error soundingLoadError ∧
    soundingLoadError ≠ missingSourceError ∧
    create_soundvolume testSynthSome ⟨[[V.num 5]], [1], 1⟩ [10] [3] [90] 1 0 =
      (1, some ⟨[[V.num 3]], [1], 1⟩) := by
  have h := C6_numeric_failure_surfaced_distinctly testEngine testSynthFail
    testRadar [1, 2] [3, 4] [90, 100] [[false]] 1 131072 false (-9999) 0 1
    ⟨5, 3⟩ ⟨[[V.num 5]], [1], 1⟩ none (by decide) (by decide)
  exact ⟨by decide, by decide, h.2.1, h.2.2.1,
    h.2.2.2.2.2 testSynthSome [10] [3] [90] ⟨[[V.num 3]], [1], 1⟩ (by decide)
      (by decide) (by decide) rfl⟩

/-- Claim C10: whenever a call with a last radar records a last-scan volume
in its trace, that volume was built with no exclusion mask — it equals the
result of `_create_rsl_volume` on the last radar with `excluded = None`,
whatever the gatefilter mask of the current scan was — and consequently
every gate of the last radar holding an ordinary value different from the
fill value survives into the comparison volume; no gate of it is replaced
by the sentinel on account of the gatefilter. -/
theorem C10_gatefilter_only_applied_to_current_volume
    (engine : UnfoldOracle) (synth : SynthOracle) (radar lr : Radar)
    (sh ss sd : Option (List ℚ)) (excluded : List (List Bool)) (filt : Nat)
    (badval : ℚ) (keep : Bool) (fill ms : ℚ) (sign : ℤ) (p : FourddParams)
    (v : RslVolume)
    (hmem : Step.builtLastVolume v ∈
      (dealias_fourdd engine synth radar (some lr) sh ss sd excluded filt
        badval keep fill ms sign p).1) :
    create_rsl_volume lr 1 badval fill none = Except.ok v ∧
    ∀ i j (q : ℚ), gate? lr.fieldData i j = some (V.num q) → q ≠ fill →
      gate? v.data i j = some (V.num q) := by
  have hok : create_rsl_volume lr 1 badval fill none = Except.ok v := by
    unfold dealias_fourdd at hmem
    cases hvel : create_rsl_volume radar 1 badval fill (some excluded) with
    | error e => simp [hvel] at hmem
    | ok vol =>
      cases hlr : create_rsl_volume lr 1 badval fill none with
      | error e => simp [hvel, hlr, Except.map] at hmem
      | ok lv =>
        cases sh with
        | none =>
          simp [hvel, hlr, Except.map, runDealias_trace] at hmem
          subst hmem
          rfl
        | some hc =>
          cases ss with
          | none =>
            simp [hvel, hlr, Except.map, runDealias_trace] at hmem
            subst hmem
            rfl
          | some sc =>
            cases sd with
            | none =>
              simp [hvel, hlr, Except.map, runDealias_trace] at hmem
              subst hmem
              rfl
            | some dc =>
              by_cases h0 :
                  (create_soundvolume synth vol hc sc dc sign ms).1 = 0
              · simp [hvel, hlr, Except.map, h0, runDealias_trace] at hmem
                subst hmem
                rfl
              · cases hres2 : (create_soundvolume synth vol hc sc dc sign ms).2 with
                | none =>
                  simp [hvel, hlr, Except.map, h0, hres2, runDealias_trace] at hmem
                  subst hmem
                  rfl
                | some sv =>
                  simp [hvel, hlr, Except.map, h0, hres2, runDealias_trace] at hmem
                  subst hmem
                  rfl
  refine ⟨hok, ?_⟩
  intro i j q hg hq
  have hdata := create_rsl_volume_data lr 1 badval fill none v hok
  rw [hdata]
  exact rslFdata_none_gate lr.fieldData lr.fieldMask fill badval i j q hg hq

/-- Witness for C10 at a concrete input: a call with a gatefilter that
excludes every gate of the current scan still builds the last-scan volume
with the gate value 5 intact. -/
theorem C10_gatefilter_only_applied_to_current_volume_witness :
    Step.builtLastVolume ⟨[[V.num 5]], [1], 1⟩ ∈
      (dealias_fourdd testEngine testSynthFail testRadar (some testRadar) none
        none none [[true]] 1 131072 false (-9999) 0 1 ⟨5, 3⟩).1 ∧
    create_rsl_volume testRadar 1 131072 (-9999) none =
      Except.ok ⟨[[V.num 5]], [1], 1⟩ ∧
    gate? testRadar.fieldData 0 0 = some (V.num 5) ∧
    gate? (RslVolume.data ⟨[[V.num 5]], [1], 1⟩) 0 0 = some (V.num 5) := by
  have h := C10_gatefilter_only_applied_to_current_volume testEngine
    testSynthFail testRadar testRadar none none none [[true]] 1 131072 false
    (-9999) 0 1 ⟨5, 3⟩ ⟨[[V.num 5]], [1], 1⟩ (by decide)
  exact ⟨by decide, h.1, by decide, h.2 0 0 5 (by decide) (by decide)⟩

end Pyart
